import Mathlib

/-!
Verification of the hotel management system skeleton
(`src/main.py`, `src/ui/auth.py`, `src/ui/dashboard.py`, `src/database/db.py`).

Python strings are embedded as Lean `String`; Python string truthiness
(`bool(s)`) becomes `pyBool`; `str.strip()` becomes `pyStrip` (drop leading
and trailing whitespace characters); the statement `a and b` on strings
becomes `pyAnd`.  Stateful objects (`DatabaseHelper`, `AuthService`) become
structures with explicit state passing; the Tkinter handlers become pure
functions from the raw entry-field contents to an outcome value describing
which dialog was shown and whether the service layer was invoked.
-/

namespace HotelMgSys

/-- Python truthiness of a string: `bool(s)` is true iff `s` is non-empty. -/
def pyBool (s : String) : Bool := s != ""

/-- Python `a and b` for strings: returns `a` when `a` is falsy, else `b`. -/
def pyAnd (a b : String) : String := if a = "" then a else b

/-- Embedding of Python `str.strip()`: drop leading whitespace characters
from a character list. -/
def dropLeadingWs : List Char → List Char
  | [] => []
  | c :: cs => if c.isWhitespace then dropLeadingWs cs else c :: cs

/-- Embedding of Python `str.strip()`: drop leading and trailing whitespace. -/
def pyStrip (s : String) : String :=
  ⟨dropLeadingWs ((dropLeadingWs s.data.reverse).reverse)⟩

-- ---------------------------------------------------------------------------
-- database/db.py
-- ---------------------------------------------------------------------------

/-- A live MySQL connection object as seen by `db.py`: the only operation the
source uses is `is_connected()`, modelled as the field `connected`. -/
structure Connection where
  connected : Bool
deriving DecidableEq, Repr

/-- State of `DatabaseHelper` (`db.py`, `__init__`): connection parameters
plus the `connection` attribute, `None` until a successful `connect()`. -/
structure DatabaseHelper where
  host : String
  user : String
  password : String
  database : String
  connection : Option Connection
deriving DecidableEq, Repr

/-- `DatabaseHelper()` with the default parameters of `__init__`. -/
def DatabaseHelper.init : DatabaseHelper :=
  { host := "localhost", user := "root", password := "",
    database := "hotel_management", connection := none }

/-- Outcome of the external call `mysql.connector.connect(...)`: either a
live connection, or a raised `mysql.connector.Error` carrying a message. -/
inductive ConnectOutcome where
  | success (conn : Connection)
  | failure (err : String)
deriving DecidableEq, Repr

/-- The `try` body of `DatabaseHelper.connect`: assign `self.connection` and
return `True`, or propagate the raised `Error` to the handler. -/
def connectBody (db : DatabaseHelper) (outcome : ConnectOutcome) :
    Except String (DatabaseHelper × Bool) :=
  match outcome with
  | .success c => .ok ({ db with connection := some c }, true)
  | .failure e => .error e

/-- `DatabaseHelper.connect` (`db.py` lines 17-29): run the body; a raised
`mysql.connector.Error` is caught, a console line is printed, and `False` is
returned.  Result: updated state, boolean return value, console output. -/
def DatabaseHelper.connect (db : DatabaseHelper) (outcome : ConnectOutcome) :
    DatabaseHelper × Bool × List String :=
  match connectBody db outcome with
  | .ok (db2, b) => (db2, b, [])
  | .error e => (db, false, ["Error connecting to database: " ++ e])

/-- What `DatabaseHelper.disconnect` does: either calls `close()` on the
connection or performs no action at all. -/
inductive DisconnectAction where
  | closed
  | noAction
deriving DecidableEq, Repr

/-- `DatabaseHelper.disconnect` (`db.py` lines 31-34): close only when
`self.connection` is truthy (not `None`) and `is_connected()` holds. -/
def DatabaseHelper.disconnect (db : DatabaseHelper) : DisconnectAction :=
  match db.connection with
  | none => .noAction
  | some c => if c.connected then .closed else .noAction

-- ---------------------------------------------------------------------------
-- ui/auth.py : AuthService
-- ---------------------------------------------------------------------------

/-- `AuthService.validate_credentials` (`auth.py` lines 110-116):
`return bool(username and password)`; the `except` branch is unreachable
since the body raises nothing. -/
def validate_credentials (username password : String) : Bool :=
  pyBool (pyAnd username password)

/-- `AuthService.register_user` (`auth.py` lines 118-126):
reject when either field is falsy, otherwise `return True`; the `except`
branch is unreachable since the body raises nothing. -/
def register_user (username password : String) : Bool :=
  if !(pyBool username) || !(pyBool password) then false else true

/-- State of `AuthService` (`auth.py` line 99-100): just its `db` helper. -/
structure AuthService where
  db : DatabaseHelper
deriving DecidableEq, Repr

/-- `AuthService.__init__`: `self.db = db or DatabaseHelper()`. -/
def AuthService.init (db : Option DatabaseHelper) : AuthService :=
  { db := db.getD DatabaseHelper.init }

/-- The method `AuthService.validate_credentials` on the service state: the
body reads no field of `self` and assigns none, so the state is returned
unchanged alongside the boolean result. -/
def AuthService.validate (s : AuthService) (username password : String) :
    AuthService × Bool :=
  (s, validate_credentials username password)

/-- The method `AuthService.register_user` on the service state: the body
reads no field of `self` and assigns none, so the state is returned
unchanged alongside the boolean result. -/
def AuthService.register (s : AuthService) (username password : String) :
    AuthService × Bool :=
  (s, register_user username password)

-- ---------------------------------------------------------------------------
-- ui/auth.py : AuthWindow handlers
-- ---------------------------------------------------------------------------

/-- Dialog shown by `AuthWindow._handle_signin`. -/
inductive SigninDialog where
  | missingInfo
  | welcome (username : String)
  | authFailed
deriving DecidableEq, Repr

/-- Result of `_handle_signin`: the dialog shown, and whether
`validate_credentials` was invoked. -/
structure SigninResult where
  dialog : SigninDialog
  validateCalled : Bool
deriving DecidableEq, Repr

/-- `AuthWindow._handle_signin` (`auth.py` lines 214-227) as a function of
the raw contents of the two entry fields. -/
def handle_signin (rawUser rawPass : String) : SigninResult :=
  let username := pyStrip rawUser
  let password := pyStrip rawPass
  if !(pyBool username) || !(pyBool password) then
    { dialog := .missingInfo, validateCalled := false }
  else if validate_credentials username password then
    { dialog := .welcome username, validateCalled := true }
  else
    { dialog := .authFailed, validateCalled := true }

/-- Dialog shown by `AuthWindow._handle_signup`. -/
inductive SignupDialog where
  | missingInfo
  | mismatch
  | success
  | couldNotCreate
deriving DecidableEq, Repr

/-- Result of `_handle_signup`: the dialog shown, and whether
`register_user` was invoked. -/
structure SignupResult where
  dialog : SignupDialog
  registerCalled : Bool
deriving DecidableEq, Repr

/-- `AuthWindow._handle_signup` (`auth.py` lines 229-244) as a function of
the raw contents of the three entry fields. -/
def handle_signup (rawUser rawPass rawConfirm : String) : SignupResult :=
  let username := pyStrip rawUser
  let password := pyStrip rawPass
  let confirm := pyStrip rawConfirm
  if !(pyBool username) || !(pyBool password) then
    { dialog := .missingInfo, registerCalled := false }
  else if password ≠ confirm then
    { dialog := .mismatch, registerCalled := false }
  else if register_user username password then
    { dialog := .success, registerCalled := true }
  else
    { dialog := .couldNotCreate, registerCalled := true }

-- ---------------------------------------------------------------------------
-- ui/dashboard.py
-- ---------------------------------------------------------------------------

/-- State of `Dashboard` relevant to its text content: the `username`
stored by `__init__` for display. -/
structure Dashboard where
  username : String
deriving DecidableEq, Repr

/-- `open_dashboard` (`dashboard.py` lines 293-308): constructs a
`Dashboard` holding the given display name. -/
def open_dashboard (username : String) : Dashboard :=
  { username := username }

/-- The heading text rendered by `Dashboard._create_welcome_section`
(`dashboard.py` lines 169-186): the f-string `Welcome, {self.username}!`. -/
def welcome_heading (d : Dashboard) : String :=
  "Welcome, " ++ d.username ++ "!"

-- ---------------------------------------------------------------------------
-- main.py and the names exported by ui/auth.py
-- ---------------------------------------------------------------------------

/-- The top-level names defined by module `ui.auth` (`auth.py`): theme
constants, fonts, and its functions and classes. -/
def auth_module_names : List String :=
  ["PRIMARY_BG", "SURFACE_BG", "CARD_BG", "ACCENT", "ACCENT_HOVER",
   "TEXT_PRIMARY", "TEXT_MUTED", "ERROR",
   "FONT_TITLE", "FONT_SUBTITLE", "FONT_LABEL", "FONT_INPUT", "FONT_BUTTON",
   "apply_styles", "AuthService", "AuthWindow", "open_auth_window"]

/-- The name `main.py` line 4 imports from `ui.auth`. -/
def main_import_name : String := "LoginWindow"

/-- Whether the import at the top of `main.py` resolves: the imported name
must be among the names defined by `ui.auth`. -/
def main_import_resolves : Bool :=
  auth_module_names.contains main_import_name

-- ---------------------------------------------------------------------------
-- Helper lemmas
-- ---------------------------------------------------------------------------

theorem pyBool_true_iff (s : String) : pyBool s = true ↔ s ≠ "" := by
  simp [pyBool, bne_iff_ne]

theorem validate_credentials_eq_true_iff (u p : String) :
    validate_credentials u p = true ↔ u ≠ "" ∧ p ≠ "" := by
  unfold validate_credentials pyAnd
  by_cases h : u = "" <;> simp [h, pyBool_true_iff]

theorem register_user_eq_true_iff (u p : String) :
    register_user u p = true ↔ u ≠ "" ∧ p ≠ "" := by
  rcases eq_or_ne u "" with hu | hu <;> rcases eq_or_ne p "" with hp | hp <;>
    simp [register_user, pyBool, hu, hp]

theorem dropLeadingWs_eq_nil (cs : List Char) (h : ∀ c ∈ cs, c.isWhitespace) :
    dropLeadingWs cs = [] := by
  induction cs with
  | nil => rfl
  | cons c cs ih =>
      have hc := h c (List.mem_cons_self c cs)
      rw [dropLeadingWs, if_pos hc]
      exact ih fun d hd => h d (List.mem_cons_of_mem c hd)

theorem pyStrip_eq_empty (s : String) (h : ∀ c ∈ s.data, c.isWhitespace) :
    pyStrip s = "" := by
  unfold pyStrip
  have h1 : dropLeadingWs s.data.reverse = [] :=
    dropLeadingWs_eq_nil _ fun c hc => h c (List.mem_reverse.mp hc)
  rw [h1]
  rfl

-- ---------------------------------------------------------------------------
-- Claim theorems
-- ---------------------------------------------------------------------------

/-- C1: `AuthService.validate_credentials(username, password)` returns true
iff both username and password are non-empty strings; if either is empty it
returns false. -/
theorem C1_validate_credentials_iff_nonempty (username password : String) :
    validate_credentials username password = true ↔
      username ≠ "" ∧ password ≠ "" :=
  validate_credentials_eq_true_iff username password

/-- C4: `AuthService.register_user(username, password)` returns true iff
both username and password are non-empty strings; if either is empty it
returns false. -/
theorem C4_register_user_iff_nonempty (username password : String) :
    register_user username password = true ↔
      username ≠ "" ∧ password ≠ "" :=
  register_user_eq_true_iff username password

/-- C3: contrary to the claim, the name `main.py` imports from `ui.auth`
(`LoginWindow`) is not among the names that module defines, so launching the
entry point fails at import instead of reaching the login UI. -/
theorem C3_main_import_does_not_resolve : main_import_resolves = false := by
  decide

/-- C5: `DatabaseHelper.connect` catches a mysql connector `Error` inside
itself: a failure outcome yields the plain return value `false` together
with one console line and an unchanged helper state (no propagation, no
retry on the single attempt), while a success outcome stores the connection
and returns `true` with no console output. -/
theorem C5_connect_error_swallowed :
    (∀ (db : DatabaseHelper) (e : String),
      db.connect (ConnectOutcome.failure e) =
        (db, false, ["Error connecting to database: " ++ e])) ∧
    (∀ (db : DatabaseHelper) (c : Connection),
      db.connect (ConnectOutcome.success c) =
        ({ db with connection := some c }, true, [])) := by
  constructor <;> intro db x <;> rfl

/-- C6: opening the dashboard with any display name renders a welcome
heading containing that exact name as a substring. -/
theorem C6_welcome_contains_username (username : String) :
    ∃ pre post,
      welcome_heading (open_dashboard username) = pre ++ username ++ post :=
  ⟨"Welcome, ", "!", rfl⟩

/-- C7: `register_user` keeps no state and enforces no uniqueness: for any
non-empty pair, registering twice through the same service succeeds both
times and leaves every field of the service (including its db helper)
unchanged. -/
theorem C7_register_user_stateless (s : AuthService) (u p : String)
    (hu : u ≠ "") (hp : p ≠ "") :
    s.register u p = (s, true) ∧
    (s.register u p).1.register u p = (s, true) := by
  have hr : register_user u p = true := (register_user_eq_true_iff u p).mpr ⟨hu, hp⟩
  simp [AuthService.register, hr]

theorem C7_register_user_stateless_witness :
    (AuthService.init none).register "alice" "pw" = (AuthService.init none, true) ∧
    ((AuthService.init none).register "alice" "pw").1.register "alice" "pw" =
      (AuthService.init none, true) :=
  C7_register_user_stateless (AuthService.init none) "alice" "pw"
    (by decide) (by decide)

/-- C8: the post-service failure dialogs are unreachable: `_handle_signin`
never shows the Authentication-failed dialog, and `_handle_signup` never
shows the Could-not-create-account dialog, whatever the raw field
contents. -/
theorem C8_failure_branches_unreachable :
    (∀ u p, (handle_signin u p).dialog ≠ SigninDialog.authFailed) ∧
    (∀ u p c, (handle_signup u p c).dialog ≠ SignupDialog.couldNotCreate) := by
  constructor
  · intro u p
    unfold handle_signin
    by_cases ha : pyStrip u = ""
    · simp [ha, pyBool]
    · by_cases hb : pyStrip p = ""
      · simp [ha, hb, pyBool]
      · have hv : validate_credentials (pyStrip u) (pyStrip p) = true :=
          (validate_credentials_eq_true_iff _ _).mpr ⟨ha, hb⟩
        simp [pyBool, ha, hb, hv]
  · intro u p c
    unfold handle_signup
    by_cases ha : pyStrip u = ""
    · simp [ha, pyBool]
    · by_cases hb : pyStrip p = ""
      · simp [ha, hb, pyBool]
      · have hr : register_user (pyStrip u) (pyStrip p) = true :=
          (register_user_eq_true_iff _ _).mpr ⟨ha, hb⟩
        by_cases hc : pyStrip p = pyStrip c
        · have hb2 : pyStrip c ≠ "" := hc ▸ hb
          have hr2 : register_user (pyStrip u) (pyStrip c) = true := hc ▸ hr
          simp [pyBool, ha, hb, hc, hb2, hr2]
        · simp [pyBool, ha, hb, hc]

/-- C9: both handlers strip their fields before any check, so a username or
password made only of whitespace is treated as empty: each handler shows the
missing-info dialog and never reaches the service layer. -/
theorem C9_whitespace_only_treated_empty (u p c : String)
    (h : (∀ ch ∈ u.data, ch.isWhitespace) ∨ (∀ ch ∈ p.data, ch.isWhitespace)) :
    handle_signin u p =
      { dialog := SigninDialog.missingInfo, validateCalled := false } ∧
    handle_signup u p c =
      { dialog := SignupDialog.missingInfo, registerCalled := false } := by
  rcases h with h | h
  · have hs : pyStrip u = "" := pyStrip_eq_empty u h
    constructor <;> simp [handle_signin, handle_signup, hs, pyBool]
  · have hs : pyStrip p = "" := pyStrip_eq_empty p h
    constructor <;> simp [handle_signin, handle_signup, hs, pyBool]

theorem C9_whitespace_only_treated_empty_witness :
    handle_signin "  " "secret" =
      { dialog := SigninDialog.missingInfo, validateCalled := false } ∧
    handle_signup "  " "secret" "secret" =
      { dialog := SignupDialog.missingInfo, registerCalled := false } :=
  C9_whitespace_only_treated_empty "  " "secret" "secret" (Or.inl (by decide))

/-- C10: `DatabaseHelper.disconnect` is safe in every state: with no
connection it performs no action, and it closes exactly when a connection
object exists and reports itself connected. -/
theorem C10_disconnect_safe (db : DatabaseHelper) :
    (db.connection = none → db.disconnect = DisconnectAction.noAction) ∧
    (db.disconnect = DisconnectAction.closed ↔
      ∃ c, db.connection = some c ∧ c.connected = true) := by
  rcases hdb : db.connection with _ | c
  · constructor
    · intro _
      simp [DatabaseHelper.disconnect, hdb]
    · simp [DatabaseHelper.disconnect, hdb]
  · constructor
    · intro hn
      exact absurd hn (by simp)
    · rcases hc : c.connected
      · simp [DatabaseHelper.disconnect, hdb, hc]
      · simp [DatabaseHelper.disconnect, hdb, hc]

theorem C10_disconnect_safe_witness :
    DatabaseHelper.init.disconnect = DisconnectAction.noAction :=
  (C10_disconnect_safe DatabaseHelper.init).1 rfl

/-- C2 fails as stated: with an empty username the stripped passwords match
and are non-empty, yet the signup flow shows the missing-info dialog rather
than reporting success. -/
theorem C2_counterexample :
    pyStrip "a" = pyStrip "a" ∧ pyStrip "a" ≠ "" ∧
    (handle_signup "" "a" "a").dialog ≠ SignupDialog.success := by
  decide

/-- C2 (amended): whenever the stripped password and confirmation differ,
the signup flow shows an error dialog and never calls `register_user`; and
whenever the stripped username, password and confirmation are non-empty with
password equal to confirmation, the flow reports success. -/
theorem C2_signup_flow :
    (∀ u p c, pyStrip p ≠ pyStrip c →
      (handle_signup u p c).registerCalled = false ∧
      (handle_signup u p c).dialog ≠ SignupDialog.success) ∧
    (∀ u p c, pyStrip u ≠ "" → pyStrip p ≠ "" → pyStrip p = pyStrip c →
      (handle_signup u p c).dialog = SignupDialog.success) := by
  constructor
  · intro u p c hne
    unfold handle_signup
    by_cases ha : pyStrip u = ""
    · simp [ha, pyBool]
    · by_cases hb : pyStrip p = ""
      · simp [ha, hb, pyBool]
      · simp [pyBool, ha, hb, hne]
  · intro u p c ha hb heq
    have hb2 : pyStrip c ≠ "" := heq ▸ hb
    have hr : register_user (pyStrip u) (pyStrip c) = true :=
      (register_user_eq_true_iff _ _).mpr ⟨ha, hb2⟩
    unfold handle_signup
    simp [pyBool, ha, hb, heq, hb2, hr]

theorem C2_signup_flow_witness :
    ((handle_signup "bob" "x" "y").registerCalled = false ∧
     (handle_signup "bob" "x" "y").dialog ≠ SignupDialog.success) ∧
    (handle_signup "bob" "pw" "pw").dialog = SignupDialog.success :=
  ⟨C2_signup_flow.1 "bob" "x" "y" (by decide),
   C2_signup_flow.2 "bob" "pw" "pw" (by decide) (by decide) (by decide)⟩

end HotelMgSys
